import Mathlib

/-!
Verification development for the Personal Accountant ledger engine
(`src/agent/state.py`, `src/agent/tools.py`, `src/agent/graph.py`,
`src/backend/main.py`).

Modelling conventions:
* Python `float` amounts and balances are embedded as exact rationals (`ℚ`);
  at every concrete value used below the binary-float computation of the
  source and the rational computation agree exactly.
* Python `datetime` values are embedded as a structured `DateTime` carrying
  the fields the core reads (`year`, `month`); `datetime.fromisoformat` /
  `datetime.now()` are modelled by passing the structured value directly,
  and `datetime.now()` inside `calculate_snapshot` is made an explicit
  `now` parameter (the spec's `asOf`).
* Python dicts keyed by account name are embedded as insertion-ordered
  association lists with dict assignment semantics (`insertAcc`).
-/

/-- Model of the fields of Python `datetime` read by the core
(`.year` after `fromisoformat`, and `.year`/`.month` of `datetime.now()`). -/
structure DateTime where
  year : Int
  month : Nat
deriving Repr, DecidableEq

/-- A chat message dict `{"role": ..., "content": ...}` (graph.py). -/
structure Message where
  role : String
  content : String
deriving Repr, DecidableEq

/-- `Account` TypedDict from `src/agent/state.py`. -/
structure Account where
  name : String
  type : String
  balance : ℚ
  currency : String
deriving Repr, DecidableEq

/-- `Transaction` TypedDict from `src/agent/state.py` (the `encrypted_data`
field is written only by the out-of-scope persistence layer and omitted). -/
structure Transaction where
  id : String
  timestamp : DateTime
  description : String
  amount : ℚ
  account_from : String
  account_to : String
  category : String
  subcategory : Option String
  cost_basis : Option ℚ
  asset_type : Option String
  quantity : Option ℚ
deriving Repr, DecidableEq

/-- `UserProfile` TypedDict from `src/agent/state.py`. -/
structure UserProfile where
  tax_residency : String
  filing_status : String
  dependents : Nat
  income_sources : List String
  annual_income_estimate : ℚ
  retirement_accounts : List String
  investment_accounts : List String
  primary_bank : String
  setup_complete : Bool
deriving Repr, DecidableEq

/-- `FinancialSnapshot` TypedDict from `src/agent/state.py`. -/
structure FinancialSnapshot where
  total_cash : ℚ
  total_investments : ℚ
  total_liabilities : ℚ
  net_worth : ℚ
  ytd_income : ℚ
  ytd_expenses : ℚ
  estimated_tax_liability : ℚ
  monthly_burn_rate : ℚ
deriving Repr, DecidableEq

/-- The per-thread account mapping: a Python dict `name -> Account`,
embedded as an insertion-ordered association list. -/
abbrev AccountMap := List (String × Account)

/-- `AgentState` TypedDict from `src/agent/state.py`. -/
structure AgentState where
  messages : List Message
  user_profile : Option UserProfile
  transactions : List Transaction
  accounts : AccountMap
  snapshot : FinancialSnapshot
  pending_sync : List Transaction
  setup_step : Nat
  thread_id : String
  last_updated : String
deriving Repr, DecidableEq

/-- Dict lookup `m[k]` (first binding wins; a well-formed dict has unique keys). -/
def lookupAcc : AccountMap → String → Option Account
  | [], _ => none
  | (k, v) :: rest, key => if k = key then some v else lookupAcc rest key

/-- Dict assignment `m[k] = v`: replaces the existing binding in place
(Python dicts keep the original insertion position) or appends a new one. -/
def insertAcc : AccountMap → String → Account → AccountMap
  | [], key, v => [(key, v)]
  | (k, a) :: rest, key, v =>
      if k = key then (k, v) :: rest else (k, a) :: insertAcc rest key v

/-- In-place balance mutation `m[k]["balance"] = f(m[k]["balance"])`. -/
def adjustAcc : AccountMap → String → (ℚ → ℚ) → AccountMap
  | [], _, _ => []
  | (k, a) :: rest, key, f =>
      if k = key then (k, { a with balance := f a.balance }) :: rest
      else (k, a) :: adjustAcc rest key f

/-- Balance of account `k`, reading 0 for an account not yet created
(matching on-demand creation with balance 0). -/
def getBalance (m : AccountMap) (k : String) : ℚ :=
  match lookupAcc m k with
  | some a => a.balance
  | none => 0

/-- Sum of all account balances in the mapping. -/
def sumBalances : AccountMap → ℚ
  | [] => 0
  | (_, a) :: rest => a.balance + sumBalances rest

/-- Whether the list of chars `sub` begins the list `hay` (used for the
Python substring test `sub in hay`). -/
def startsWithList : List Char → List Char → Bool
  | [], _ => true
  | _ :: _, [] => false
  | a :: as, b :: bs => if a = b then startsWithList as bs else false

/-- Python substring membership `sub in hay` on char lists. -/
def containsList (sub : List Char) : List Char → Bool
  | [] => startsWithList sub []
  | c :: rest => startsWithList sub (c :: rest) || containsList sub rest

/-- Python `name.lower()`, modelled as per-character ASCII lowering. -/
def lowerChars (s : String) : List Char :=
  s.toList.map Char.toLower

/-- graph.py line 200: `"invest" in name.lower() or "stock" in name.lower()
or "crypto" in name.lower()`. -/
def isInvestmentName (name : String) : Bool :=
  containsList "invest".toList (lowerChars name) ||
    containsList "stock".toList (lowerChars name) ||
    containsList "crypto".toList (lowerChars name)

/-- One step of the accounts loop of `calculate_snapshot`
(graph.py lines 198-205), accumulating (total_cash, total_investments,
total_liabilities). -/
def accFold (acc : ℚ × ℚ × ℚ) (p : String × Account) : ℚ × ℚ × ℚ :=
  if p.2.type = "asset" then
    if isInvestmentName p.1 then (acc.1, acc.2.1 + p.2.balance, acc.2.2)
    else (acc.1 + p.2.balance, acc.2.1, acc.2.2)
  else if p.2.type = "liability" then (acc.1, acc.2.1, acc.2.2 + p.2.balance)
  else acc

/-- One step of the transactions loop of `calculate_snapshot`
(graph.py lines 207-213), accumulating (ytd_income, ytd_expenses). -/
def ytdFold (current_year : Int) (acc : ℚ × ℚ) (tx : Transaction) : ℚ × ℚ :=
  if tx.timestamp.year = current_year then
    if tx.category = "income" then (acc.1 + tx.amount, acc.2)
    else if tx.category = "expense" then (acc.1, acc.2 + tx.amount)
    else acc
  else acc

/-- `calculate_snapshot` from graph.py lines 188-234.  The two reads of
`datetime.now()` (year at line 196, month at line 222) are modelled by the
explicit parameter `now`. -/
def calculate_snapshot (state : AgentState) (now : DateTime) : FinancialSnapshot :=
  let t := state.accounts.foldl accFold (0, 0, 0)
  let y := state.transactions.foldl (ytdFold now.year) (0, 0)
  let total_cash := t.1
  let total_investments := t.2.1
  let total_liabilities := t.2.2
  let ytd_income := y.1
  let ytd_expenses := y.2
  let net_worth := total_cash + total_investments - total_liabilities
  let taxable_income := ytd_income - ytd_expenses * (1 / 10)
  let estimated_tax := if 0 < taxable_income then taxable_income * (22 / 100) else 0
  let months_elapsed : Nat := max 1 now.month
  let monthly_burn := ytd_expenses / (months_elapsed : ℚ)
  { total_cash := total_cash
    total_investments := total_investments
    total_liabilities := total_liabilities
    net_worth := net_worth
    ytd_income := ytd_income
    ytd_expenses := ytd_expenses
    estimated_tax_liability := estimated_tax
    monthly_burn_rate := monthly_burn }

/-- `create_default_state` from graph.py lines 110-131; `datetime.utcnow()`
is the explicit `nowIso` argument. -/
def create_default_state (nowIso : String) : AgentState :=
  { messages := []
    user_profile := none
    transactions := []
    accounts := []
    snapshot :=
      { total_cash := 0, total_investments := 0, total_liabilities := 0,
        net_worth := 0, ytd_income := 0, ytd_expenses := 0,
        estimated_tax_liability := 0, monthly_burn_rate := 0 }
    pending_sync := []
    setup_step := 0
    thread_id := ""
    last_updated := nowIso }

/-- First maximal run of ASCII digits in a char list, modelling
`re.search(r'\d+', answer)` in graph.py line 267. -/
def firstDigitRun : List Char → Option (List Char)
  | [] => none
  | c :: rest =>
      if c.isDigit then some (c :: rest.takeWhile Char.isDigit)
      else firstDigitRun rest

/-- Value of a digit string, modelling Python `int` on a `\d+` match. -/
def digitsToNat (cs : List Char) : Nat :=
  cs.foldl (fun n c => n * 10 + (c.toNat - '0'.toNat)) 0

/-- graph.py lines 266-269: first integer found in the dependents answer,
defaulting to 0 when the answer contains no digits. -/
def parseDependents (s : String) : Nat :=
  match firstDigitRun s.toList with
  | some ds => digitsToNat ds
  | none => 0

/-- graph.py line 275: `re.sub(r'[^\d.]', '', answer)` — keep only digits
and dots. -/
def stripNonDigitDot (s : String) : List Char :=
  s.toList.filter (fun c => c.isDigit || c = '.')

/-- Python `float` applied to a nonempty string of digits and dots:
defined exactly when at most one dot and at least one digit are present
(e.g. "12.5", "12.", ".5" parse; "", ".", "1.2.3" do not). -/
def parseDecimal (cs : List Char) : Option ℚ :=
  if ((cs.filter (fun c => c = '.')).length ≤ 1 && cs.any Char.isDigit : Bool) then
    some ((digitsToNat (cs.takeWhile (fun c => c ≠ '.')) : ℚ) +
      (digitsToNat ((cs.dropWhile (fun c => c ≠ '.')).drop 1) : ℚ) /
        (10 ^ ((cs.dropWhile (fun c => c ≠ '.')).drop 1).length : ℚ))
  else none

/-- graph.py lines 272-278: annual-income answer, stripped to digits/dots and
parsed as a decimal, defaulting to 0.0 on empty result or parse failure. -/
def parseIncome (s : String) : ℚ :=
  match parseDecimal (stripNonDigitDot s) with
  | some q => q
  | none => 0

/-- `[s.strip() for s in answer.split(",")]` (graph.py lines 271, 280, 282). -/
def splitCommaStrip (answer : String) : List String :=
  (answer.splitOn ",").map String.trim

/-- `SETUP_QUESTIONS` from graph.py lines 98-107. -/
def SETUP_QUESTIONS : List String :=
  [ "What\x27s your tax residency? (e.g., US - California, UK, Canada - Ontario)",
    "What\x27s your filing status? (Single, Married Filing Jointly, Married Filing Separately, Head of Household)",
    "How many dependents do you claim?",
    "What are your income sources? (e.g., W-2 employment, 1099 contractor, business income, investments)",
    "What\x27s your estimated annual income?",
    "What retirement accounts do you have? (e.g., 401k, IRA, Roth IRA, none)",
    "What investment accounts do you have? (e.g., brokerage, crypto exchanges, none)",
    "What\x27s your primary bank?" ]

/-- The fresh profile literal of graph.py lines 246-256. -/
def defaultProfile : UserProfile :=
  { tax_residency := ""
    filing_status := ""
    dependents := 0
    income_sources := []
    annual_income_estimate := 0
    retirement_accounts := []
    investment_accounts := []
    primary_bank := ""
    setup_complete := false }

/-- The per-step answer storage of graph.py lines 261-285. -/
def storeAnswer (profile : UserProfile) (step : Nat) (answer : String) : UserProfile :=
  if step = 0 then { profile with tax_residency := answer }
  else if step = 1 then { profile with filing_status := answer }
  else if step = 2 then { profile with dependents := parseDependents answer }
  else if step = 3 then { profile with income_sources := splitCommaStrip answer }
  else if step = 4 then { profile with annual_income_estimate := parseIncome answer }
  else if step = 5 then { profile with retirement_accounts := splitCommaStrip answer }
  else if step = 6 then { profile with investment_accounts := splitCommaStrip answer }
  else if step = 7 then { profile with primary_bank := answer, setup_complete := true }
  else profile

/-- The completion message appended at graph.py lines 297-300. -/
def completionMessage : Message :=
  { role := "assistant"
    content := "✅ Setup complete! I\x27ve recorded your financial profile. You can now start tracking transactions. Try saying something like \x27Paid $50 for dinner at Restaurant with Chase card\x27 or \x27Received $5000 salary deposit\x27." }

/-- The first-interaction welcome message of graph.py lines 302-306. -/
def welcomeMessage : Message :=
  { role := "assistant"
    content := "👋 Welcome to your Personal Accountant! Let me set up your profile.\n\n" ++
      SETUP_QUESTIONS.getD 0 "" }

/-- The answered-question branch of `handle_setup` (graph.py lines 244-300):
store the parsed answer, advance one step, append the next question or the
completion message. -/
def handleAnswer (state : AgentState) (answer : String) : AgentState :=
  let profile := storeAnswer (state.user_profile.getD defaultProfile) state.setup_step answer
  let newMessages :=
    if state.setup_step + 1 < SETUP_QUESTIONS.length then
      state.messages ++
        [{ role := "assistant",
           content := "Got it! " ++ SETUP_QUESTIONS.getD (state.setup_step + 1) "" }]
    else state.messages ++ [completionMessage]
  { state with
      user_profile := some profile
      setup_step := state.setup_step + 1
      messages := newMessages }

/-- `handle_setup` from graph.py lines 237-309. -/
def handle_setup (state : AgentState) : AgentState :=
  if state.setup_step < SETUP_QUESTIONS.length then
    match state.messages.getLast? with
    | some m =>
        if m.role = "user" then handleAnswer state m.content
        else { state with messages := state.messages ++ [welcomeMessage] }
    | none => { state with messages := state.messages ++ [welcomeMessage] }
  else state

/-- `should_setup` from graph.py lines 450-455. -/
def should_setup (state : AgentState) : String :=
  match state.user_profile with
  | none => "setup"
  | some p => if p.setup_complete then "process" else "setup"

/-- One inbound setup turn as driven by the backend (`main.py` lines 213-224):
the user message is appended to the history and the graph routes to
`handle_setup`. -/
def runSetupTurn (state : AgentState) (answer : String) : AgentState :=
  handle_setup { state with messages := state.messages ++ [{ role := "user", content := answer }] }

/-- Sequentially feed a list of user answers through `runSetupTurn`. -/
def runAnswers (state : AgentState) : List String → AgentState
  | [] => state
  | a :: rest => runAnswers (runSetupTurn state a) rest

/-- Arguments of the `add_transaction` tool (tools.py lines 12-22). -/
structure AddTxArgs where
  description : String
  amount : ℚ
  account_from : String
  account_to : String
  category : String
  subcategory : Option String := none
  cost_basis : Option ℚ := none
  asset_type : Option String := none
  quantity : Option ℚ := none
deriving Repr, DecidableEq

/-- Result dict of the `add_transaction` tool (tools.py line 53). -/
structure AddTxResult where
  success : Bool
  transaction : Transaction
deriving Repr, DecidableEq

/-- `add_transaction` from tools.py lines 12-53: builds the transaction record
and reports success unconditionally (the function body contains no
validation).  The generated `uuid` and `utcnow` are the explicit `txId` and
`ts` arguments. -/
def add_transaction (args : AddTxArgs) (txId : String) (ts : DateTime) : AddTxResult :=
  { success := true
    transaction :=
      { id := txId
        timestamp := ts
        description := args.description
        amount := args.amount
        account_from := args.account_from
        account_to := args.account_to
        category := args.category
        subcategory := args.subcategory
        cost_basis := args.cost_basis
        asset_type := args.asset_type
        quantity := args.quantity } }

/-- The on-demand account creation of graph.py lines 395-399: if the name is
absent, insert a fresh account with balance 0 and the given type. -/
def ensureAccount (m : AccountMap) (name ty : String) : AccountMap :=
  match lookupAcc m name with
  | some _ => m
  | none => insertAcc m name { name := name, type := ty, balance := 0, currency := "USD" }

/-- The `add_transaction` branch of `process_message` (graph.py lines
384-402): invoke the tool, and on success append the transaction, create
missing accounts, and post the double-entry balance update. -/
def applyAddTransaction (state : AgentState) (args : AddTxArgs) (txId : String)
    (ts : DateTime) : AgentState :=
  let res := add_transaction args txId ts
  if res.success then
    let state := { state with transactions := state.transactions ++ [res.transaction] }
    let accs := ensureAccount state.accounts args.account_from "asset"
    let accs := ensureAccount accs args.account_to
      (if args.category = "expense" then "expense" else "asset")
    let accs := adjustAcc accs args.account_from (fun b => b - args.amount)
    let accs := adjustAcc accs args.account_to (fun b => b + args.amount)
    { state with accounts := accs }
  else state

/-- One LLM-chosen tool call, as dispatched by graph.py lines 377-417.  The
four reporting tools (`generate_report`, `export_csv`, `detect_anomalies`,
`tax_estimate`) do not touch the state and collapse to `readOnly`. -/
inductive ToolCall where
  | addTx (args : AddTxArgs) (txId : String) (ts : DateTime)
  | updateBal (account_name : String) (new_balance : ℚ) (account_type currency : String)
  | readOnly
deriving Repr, DecidableEq

/-- State effect of one tool call (graph.py lines 383-417).  `update_balance`
(tools.py lines 56-84) always succeeds and stores the new account record
under its name. -/
def applyToolCall (state : AgentState) : ToolCall → AgentState
  | ToolCall.addTx args txId ts => applyAddTransaction state args txId ts
  | ToolCall.updateBal account_name new_balance account_type currency =>
      { state with
          accounts := insertAcc state.accounts account_name
            { name := account_name, type := account_type,
              balance := new_balance, currency := currency } }
  | ToolCall.readOnly => state

/-- The snapshot footer appended to the assistant reply (graph.py line 437).
The exact `$ {:,.2f}` number formatting is abstracted; no property below
depends on the rendered text. -/
def snapshotDisplay (s : FinancialSnapshot) : String :=
  "\n\n💰 Cash: " ++ toString s.total_cash ++
    " | 📈 Investments: " ++ toString s.total_investments ++
    " | 📊 Net Worth: " ++ toString s.net_worth ++
    "\n📅 YTD: Income " ++ toString s.ytd_income ++
    " / Expenses " ++ toString s.ytd_expenses ++
    " | 🏛️ Est. Tax: " ++ toString s.estimated_tax_liability

/-- Deterministic state effects of `process_message` (graph.py lines
312-447), parameterized by the LLM's chosen tool calls and final reply text:
record the pre-turn snapshot (lines 336-337), apply the tool calls (lines
377-417), recompute and record the snapshot (lines 435-436), append the
assistant reply with the snapshot footer (lines 439-442), and stamp
`last_updated` (line 445). -/
def process_message (state : AgentState) (toolCalls : List ToolCall)
    (assistantContent : String) (now : DateTime) (nowIso : String) : AgentState :=
  let s1 := { state with snapshot := calculate_snapshot state now }
  let s2 := toolCalls.foldl applyToolCall s1
  let snap := calculate_snapshot s2 now
  { s2 with
      snapshot := snap
      messages := s2.messages ++
        [{ role := "assistant", content := assistantContent ++ snapshotDisplay snap }]
      last_updated := nowIso }

/-- Membership of a string in a list, modelling Python `in` on the
`existing_ids` set of main.py line 349. -/
def idMem (x : String) : List String → Bool
  | [] => false
  | y :: rest => if y = x then true else idMem x rest

/-- The transaction merge loop of `sync_data` (main.py lines 348-352): the
set of known ids is computed once, then each incoming transaction whose id is
not in that set is appended. -/
def mergeTransactions (existing incoming : List Transaction) : List Transaction :=
  incoming.foldl
    (fun acc tx =>
      if idMem tx.id (existing.map (fun t => t.id)) then acc else acc ++ [tx])
    existing

/-- The account merge loop of `sync_data` (main.py lines 354-356):
`state["accounts"][name] = acc` for each incoming entry, in order. -/
def foldIns (accs : List (String × Account)) (m : AccountMap) : AccountMap :=
  accs.foldl (fun m p => insertAcc m p.1 p.2) m

/-- `sync_data` from main.py lines 337-369 (the state mutation part, after
the per-thread state is loaded): merge transactions idempotently by id, merge
accounts last-write-wins by name, then recompute the snapshot and stamp
`last_updated`. -/
def sync_data (state : AgentState) (txs : List Transaction)
    (accs : List (String × Account)) (now : DateTime) (nowIso : String) : AgentState :=
  { state with
      transactions := mergeTransactions state.transactions txs
      accounts := foldIns accs state.accounts
      snapshot := calculate_snapshot
        { state with
            transactions := mergeTransactions state.transactions txs
            accounts := foldIns accs state.accounts } now
      last_updated := nowIso }

/-- The reference YTD aggregate: sum of the amounts of exactly those
transactions in the given calendar year with the given category. -/
def ytdSum (yr : Int) (cat : String) : List Transaction → ℚ
  | [] => 0
  | tx :: rest =>
      (if tx.timestamp.year = yr ∧ tx.category = cat then tx.amount else 0) +
        ytdSum yr cat rest

/-- Reference sum of asset balances classified as investments by name. -/
def sumAssetsInv : AccountMap → ℚ
  | [] => 0
  | p :: rest =>
      (if p.2.type = "asset" ∧ isInvestmentName p.1 = true then p.2.balance else 0) +
        sumAssetsInv rest

/-- Reference sum of asset balances not classified as investments. -/
def sumAssetsCash : AccountMap → ℚ
  | [] => 0
  | p :: rest =>
      (if p.2.type = "asset" ∧ isInvestmentName p.1 = false then p.2.balance else 0) +
        sumAssetsCash rest

/-- Reference sum of liability balances. -/
def sumLiabilities : AccountMap → ℚ
  | [] => 0
  | p :: rest =>
      (if p.2.type = "liability" then p.2.balance else 0) + sumLiabilities rest

/-! ### Association-list lemmas -/

theorem lookup_insert (m : AccountMap) (k k' : String) (v : Account) :
    lookupAcc (insertAcc m k v) k' = if k = k' then some v else lookupAcc m k' := by
  induction m with
  | nil => simp [insertAcc, lookupAcc]
  | cons p rest ih =>
      obtain ⟨k0, a0⟩ := p
      by_cases h0 : k0 = k
      · subst h0
        by_cases h1 : k0 = k'
        · subst h1; simp [insertAcc, lookupAcc]
        · simp [insertAcc, lookupAcc, h1]
      · by_cases h1 : k0 = k'
        · subst h1
          have hne : k ≠ k0 := fun h => h0 h.symm
          simp [insertAcc, lookupAcc, h0, hne]
        · simp [insertAcc, lookupAcc, h0, h1, ih]

theorem lookup_adjust (m : AccountMap) (k k' : String) (f : ℚ → ℚ) :
    lookupAcc (adjustAcc m k f) k' =
      if k = k' then (lookupAcc m k).map (fun a => { a with balance := f a.balance })
      else lookupAcc m k' := by
  induction m with
  | nil => simp [adjustAcc, lookupAcc]
  | cons p rest ih =>
      obtain ⟨k0, a0⟩ := p
      by_cases h0 : k0 = k
      · subst h0
        by_cases h1 : k0 = k'
        · subst h1; simp [adjustAcc, lookupAcc]
        · simp [adjustAcc, lookupAcc, h1]
      · by_cases h1 : k0 = k'
        · subst h1
          have hne : k ≠ k0 := fun h => h0 h.symm
          simp [adjustAcc, lookupAcc, h0, hne]
        · simp [adjustAcc, lookupAcc, h0, h1, ih]

theorem adjust_absent (m : AccountMap) (k : String) (f : ℚ → ℚ)
    (h : lookupAcc m k = none) : adjustAcc m k f = m := by
  induction m with
  | nil => simp [adjustAcc]
  | cons p rest ih =>
      obtain ⟨k0, a0⟩ := p
      by_cases h0 : k0 = k
      · subst h0; simp [lookupAcc] at h
      · simp [lookupAcc, h0] at h
        simp [adjustAcc, h0, ih h]

theorem sum_insert_absent (m : AccountMap) (k : String) (v : Account)
    (h : lookupAcc m k = none) :
    sumBalances (insertAcc m k v) = sumBalances m + v.balance := by
  induction m with
  | nil => simp [insertAcc, sumBalances]
  | cons p rest ih =>
      obtain ⟨k0, a0⟩ := p
      by_cases h0 : k0 = k
      · subst h0; simp [lookupAcc] at h
      · simp [lookupAcc, h0] at h
        simp [insertAcc, h0, sumBalances, ih h]
        ring

theorem sum_adjust (m : AccountMap) (k : String) (f : ℚ → ℚ) (a : Account)
    (h : lookupAcc m k = some a) :
    sumBalances (adjustAcc m k f) = sumBalances m - a.balance + f a.balance := by
  induction m with
  | nil => simp [lookupAcc] at h
  | cons p rest ih =>
      obtain ⟨k0, a0⟩ := p
      by_cases h0 : k0 = k
      · subst h0
        simp [lookupAcc] at h
        subst h
        simp [adjustAcc, sumBalances]
        ring
      · simp [lookupAcc, h0] at h
        simp [adjustAcc, h0, sumBalances, ih h]
        ring

theorem getBalance_ensure (m : AccountMap) (k k' ty : String) :
    getBalance (ensureAccount m k ty) k' = getBalance m k' := by
  unfold ensureAccount
  cases hm : lookupAcc m k with
  | some a => rfl
  | none =>
      unfold getBalance
      rw [lookup_insert]
      by_cases h : k = k'
      · subst h; rw [hm]; simp
      · simp [h]

theorem lookup_ensure_isSome (m : AccountMap) (k ty : String) :
    (lookupAcc (ensureAccount m k ty) k).isSome = true := by
  unfold ensureAccount
  cases hm : lookupAcc m k with
  | some a => simp [hm]
  | none => rw [lookup_insert]; simp

theorem lookup_ensure_other (m : AccountMap) (k k' ty : String) (h : k ≠ k') :
    lookupAcc (ensureAccount m k ty) k' = lookupAcc m k' := by
  unfold ensureAccount
  cases hm : lookupAcc m k with
  | some a => rfl
  | none => rw [lookup_insert]; simp [h]

theorem sum_ensure (m : AccountMap) (k ty : String) :
    sumBalances (ensureAccount m k ty) = sumBalances m := by
  unfold ensureAccount
  cases hm : lookupAcc m k with
  | some a => rfl
  | none => rw [sum_insert_absent m k _ hm]; simp

/-! ### YTD fold lemmas -/

theorem ytdFold_foldl (yr : Int) (l : List Transaction) :
    ∀ a b : ℚ, l.foldl (ytdFold yr) (a, b) =
      (a + ytdSum yr "income" l, b + ytdSum yr "expense" l) := by
  induction l with
  | nil => intro a b; simp [ytdSum]
  | cons tx rest ih =>
      intro a b
      by_cases hy : tx.timestamp.year = yr
      · by_cases hi : tx.category = "income"
        · have he : ¬ tx.category = "expense" := by rw [hi]; decide
          simp [ytdFold, hy, hi, ytdSum, ih, he]
          ring
        · by_cases he : tx.category = "expense"
          · simp [ytdFold, hy, hi, he, ytdSum, ih]
            ring
          · simp [ytdFold, hy, hi, he, ytdSum, ih]
      · simp [ytdFold, hy, ytdSum, ih]

theorem calculate_ytd_income (s : AgentState) (now : DateTime) :
    (calculate_snapshot s now).ytd_income = ytdSum now.year "income" s.transactions := by
  unfold calculate_snapshot
  rw [ytdFold_foldl]
  simp

theorem calculate_ytd_expenses (s : AgentState) (now : DateTime) :
    (calculate_snapshot s now).ytd_expenses = ytdSum now.year "expense" s.transactions := by
  unfold calculate_snapshot
  rw [ytdFold_foldl]
  simp

/-! ### Account classification fold lemmas -/

theorem accFold_foldl (l : AccountMap) :
    ∀ c i b : ℚ, l.foldl accFold (c, i, b) =
      (c + sumAssetsCash l, i + sumAssetsInv l, b + sumLiabilities l) := by
  induction l with
  | nil => intro c i b; simp [sumAssetsCash, sumAssetsInv, sumLiabilities]
  | cons p rest ih =>
      intro c i b
      by_cases ha : p.2.type = "asset"
      · by_cases hv : isInvestmentName p.1
        · have : ¬ p.2.type = "liability" := by rw [ha]; decide
          simp [accFold, ha, hv, sumAssetsCash, sumAssetsInv, sumLiabilities, ih, this]
          ring
        · simp [accFold, ha, hv, sumAssetsCash, sumAssetsInv, sumLiabilities, ih]
          ring
      · by_cases hl : p.2.type = "liability"
        · simp [accFold, ha, hl, sumAssetsCash, sumAssetsInv, sumLiabilities, ih]
          ring
        · simp [accFold, ha, hl, sumAssetsCash, sumAssetsInv, sumLiabilities, ih]

theorem calculate_totals (s : AgentState) (now : DateTime) :
    (calculate_snapshot s now).total_cash = sumAssetsCash s.accounts ∧
    (calculate_snapshot s now).total_investments = sumAssetsInv s.accounts ∧
    (calculate_snapshot s now).total_liabilities = sumLiabilities s.accounts := by
  unfold calculate_snapshot
  rw [accFold_foldl]
  simp

/-- The snapshot is a function of the accounts and transactions components
of the state only. -/
theorem calculate_snapshot_congr (s1 s2 : AgentState) (now : DateTime)
    (ha : s1.accounts = s2.accounts) (ht : s1.transactions = s2.transactions) :
    calculate_snapshot s1 now = calculate_snapshot s2 now := by
  unfold calculate_snapshot
  rw [ha, ht]

/-! ### Merge lemmas -/

theorem idMem_iff (x : String) (l : List String) : idMem x l = true ↔ x ∈ l := by
  induction l with
  | nil => simp [idMem]
  | cons y rest ih =>
      by_cases h : y = x
      · subst h; simp [idMem]
      · simp [idMem, h, ih]
        intro hx; exact absurd hx.symm h

theorem merge_foldl_filter (ids : List String) (b : List Transaction) :
    ∀ acc : List Transaction,
      b.foldl (fun a tx => if idMem tx.id ids then a else a ++ [tx]) acc =
        acc ++ b.filter (fun t => !(idMem t.id ids)) := by
  induction b with
  | nil => intro acc; simp
  | cons t rest ih =>
      intro acc
      by_cases h : idMem t.id ids = true
      · simp [h, List.filter, ih]
      · simp only [Bool.not_eq_true] at h
        simp [h, List.filter, ih]

theorem merge_eq_append_filter (e b : List Transaction) :
    mergeTransactions e b =
      e ++ b.filter (fun t => !(idMem t.id (e.map (fun x => x.id)))) := by
  unfold mergeTransactions
  exact merge_foldl_filter _ b e

theorem merge_foldl_skip (ids : List String) (b : List Transaction)
    (acc : List Transaction) (h : ∀ t ∈ b, idMem t.id ids = true) :
    b.foldl (fun a tx => if idMem tx.id ids then a else a ++ [tx]) acc = acc := by
  rw [merge_foldl_filter]
  have : b.filter (fun t => !(idMem t.id ids)) = [] := by
    rw [List.filter_eq_nil_iff]
    intro t ht
    simp [h t ht]
  rw [this, List.append_nil]

theorem merge_mem_ids (e b : List Transaction) (t : Transaction) (ht : t ∈ b) :
    idMem t.id ((mergeTransactions e b).map (fun x => x.id)) = true := by
  rw [merge_eq_append_filter, List.map_append, idMem_iff, List.mem_append]
  by_cases h : idMem t.id (e.map (fun x => x.id)) = true
  · left; rw [idMem_iff] at h; exact h
  · right
    simp only [Bool.not_eq_true] at h
    exact List.mem_map_of_mem _ (List.mem_filter.mpr ⟨ht, by simp [h]⟩)

theorem merge_idem (e b : List Transaction) :
    mergeTransactions (mergeTransactions e b) b = mergeTransactions e b := by
  unfold mergeTransactions
  exact merge_foldl_skip _ b _ (fun t ht => merge_mem_ids e b t ht)

theorem merge_nodup (e b : List Transaction)
    (he : (e.map (fun t => t.id)).Nodup) (hb : (b.map (fun t => t.id)).Nodup) :
    ((mergeTransactions e b).map (fun t => t.id)).Nodup := by
  rw [merge_eq_append_filter, List.map_append, List.nodup_append]
  refine ⟨he, ?_, ?_⟩
  · exact hb.sublist (List.Sublist.map _ (List.filter_sublist b))
  · intro x hxe hxf
    obtain ⟨t, htf, rfl⟩ := List.mem_map.mp hxf
    have := (List.mem_filter.mp htf).2
    rw [← idMem_iff] at hxe
    simp [hxe] at this

/-! ### Account-merge lemmas -/

theorem insert_lookup_fix (m : AccountMap) (k : String) (v : Account)
    (h : lookupAcc m k = some v) : insertAcc m k v = m := by
  induction m with
  | nil => simp [lookupAcc] at h
  | cons p rest ih =>
      obtain ⟨k0, a0⟩ := p
      by_cases h0 : k0 = k
      · subst h0
        simp [lookupAcc] at h
        simp [insertAcc, h]
      · simp [lookupAcc, h0] at h
        simp [insertAcc, h0, ih h]

theorem foldIns_lookup_notmem (accs : List (String × Account)) (m : AccountMap)
    (k : String) (h : k ∉ accs.map Prod.fst) :
    lookupAcc (foldIns accs m) k = lookupAcc m k := by
  induction accs generalizing m with
  | nil => rfl
  | cons p rest ih =>
      simp only [List.map_cons, List.mem_cons] at h
      push_neg at h
      have step : foldIns (p :: rest) m = foldIns rest (insertAcc m p.1 p.2) := rfl
      rw [step, ih _ h.2, lookup_insert]
      rw [if_neg (fun hk => h.1 hk.symm)]

theorem foldIns_lookup_mem (accs : List (String × Account)) (m : AccountMap)
    (hnd : (accs.map Prod.fst).Nodup) (k : String) (v : Account)
    (hmem : (k, v) ∈ accs) :
    lookupAcc (foldIns accs m) k = some v := by
  induction accs generalizing m with
  | nil => simp at hmem
  | cons p rest ih =>
      simp only [List.map_cons, List.nodup_cons] at hnd
      have step : foldIns (p :: rest) m = foldIns rest (insertAcc m p.1 p.2) := rfl
      rcases List.mem_cons.mp hmem with heq | hmem'
      · obtain ⟨k0, v0⟩ := p
        simp only [Prod.mk.injEq] at heq
        obtain ⟨hk, hv⟩ := heq
        subst hk; subst hv
        rw [step, foldIns_lookup_notmem rest _ k hnd.1, lookup_insert]
        simp
      · exact step ▸ ih _ hnd.2 hmem'

theorem foldIns_fix (accs : List (String × Account)) (M : AccountMap)
    (h : ∀ p ∈ accs, lookupAcc M p.1 = some p.2) : foldIns accs M = M := by
  induction accs with
  | nil => rfl
  | cons p rest ih =>
      have step : foldIns (p :: rest) M = foldIns rest (insertAcc M p.1 p.2) := rfl
      rw [step, insert_lookup_fix M p.1 p.2 (h p (List.mem_cons_self p rest))]
      exact ih (fun q hq => h q (List.mem_cons_of_mem p hq))

theorem foldIns_idem (accs : List (String × Account)) (m : AccountMap)
    (hnd : (accs.map Prod.fst).Nodup) :
    foldIns accs (foldIns accs m) = foldIns accs m :=
  foldIns_fix accs _ (fun p hp => foldIns_lookup_mem accs m hnd p.1 p.2 hp)

/-! ### Setup-wizard helper lemmas -/

theorem getLast_concat_msg (l : List Message) (x : Message) :
    (l ++ [x]).getLast? = some x := by
  rw [List.getLast?_append_cons]
  rfl

theorem firstDigitRun_none (cs : List Char) (h : ∀ c ∈ cs, c.isDigit = false) :
    firstDigitRun cs = none := by
  induction cs with
  | nil => rfl
  | cons c rest ih =>
      have hc := h c (List.mem_cons_self c rest)
      simp [firstDigitRun, hc]
      exact ih (fun d hd => h d (List.mem_cons_of_mem c hd))

theorem parseDependents_no_digit (s : String)
    (h : s.toList.all (fun c => !c.isDigit) = true) : parseDependents s = 0 := by
  unfold parseDependents
  rw [firstDigitRun_none]
  intro c hc
  have := List.all_eq_true.mp h c hc
  simpa using this

/-! ### Double-entry pipeline lemmas -/

theorem getBalance_eq (m : AccountMap) (k : String) (a : Account)
    (h : lookupAcc m k = some a) : getBalance m k = a.balance := by
  unfold getBalance; rw [h]

theorem lookup_ensure_some (m : AccountMap) (k ty : String) :
    ∃ a : Account, lookupAcc (ensureAccount m k ty) k = some a ∧
      a.balance = getBalance m k := by
  unfold ensureAccount
  cases hm : lookupAcc m k with
  | some a => exact ⟨a, hm, (getBalance_eq m k a hm).symm⟩
  | none =>
      refine ⟨{ name := k, type := ty, balance := 0, currency := "USD" }, ?_, ?_⟩
      · rw [lookup_insert]; simp
      · show (0 : ℚ) = getBalance m k
        unfold getBalance; rw [hm]

theorem postAccounts (m : AccountMap) (src dst ty : String) (q : ℚ) :
    sumBalances (adjustAcc (adjustAcc (ensureAccount (ensureAccount m src "asset") dst ty)
        src (fun b => b - q)) dst (fun b => b + q)) = sumBalances m ∧
    (src ≠ dst →
      getBalance (adjustAcc (adjustAcc (ensureAccount (ensureAccount m src "asset") dst ty)
          src (fun b => b - q)) dst (fun b => b + q)) src = getBalance m src - q ∧
      getBalance (adjustAcc (adjustAcc (ensureAccount (ensureAccount m src "asset") dst ty)
          src (fun b => b - q)) dst (fun b => b + q)) dst = getBalance m dst + q) := by
  obtain ⟨a1, ha1, hb1⟩ := lookup_ensure_some m src "asset"
  set A1 := ensureAccount m src "asset" with hA1def
  set A2 := ensureAccount A1 dst ty with hA2def
  have hsrc2 : ∃ a, lookupAcc A2 src = some a ∧ a.balance = getBalance m src := by
    by_cases h : dst = src
    · subst h
      obtain ⟨a2, ha2, hb2⟩ := lookup_ensure_some A1 dst ty
      refine ⟨a2, ha2, ?_⟩
      rw [hb2, hA1def, getBalance_ensure]
    · refine ⟨a1, ?_, hb1⟩
      rw [hA2def, lookup_ensure_other A1 dst src ty h]
      exact ha1
  obtain ⟨a2, ha2, hb2⟩ := hsrc2
  set A3 := adjustAcc A2 src (fun b => b - q) with hA3def
  have ha3src : lookupAcc A3 src = some { a2 with balance := a2.balance - q } := by
    rw [hA3def, lookup_adjust, if_pos rfl, ha2]
    rfl
  have hdst3 : ∃ a, lookupAcc A3 dst = some a ∧
      (src = dst → a.balance = getBalance m src - q) ∧
      (src ≠ dst → a.balance = getBalance m dst) := by
    by_cases h : src = dst
    · subst h
      exact ⟨_, ha3src, fun _ => by simp [hb2], fun hc => absurd rfl hc⟩
    · obtain ⟨ad, had, hbd⟩ : ∃ a, lookupAcc A2 dst = some a ∧ a.balance = getBalance m dst := by
        obtain ⟨ad, had, hbd⟩ := lookup_ensure_some A1 dst ty
        refine ⟨ad, hA2def ▸ had, ?_⟩
        rw [hbd, hA1def, getBalance_ensure]
      refine ⟨ad, ?_, fun hc => absurd hc h, fun _ => hbd⟩
      rw [hA3def, lookup_adjust, if_neg h]
      exact had
  obtain ⟨a3d, ha3d, hDstEq, hDstNe⟩ := hdst3
  set A4 := adjustAcc A3 dst (fun b => b + q) with hA4def
  have ha4dst : lookupAcc A4 dst = some { a3d with balance := a3d.balance + q } := by
    rw [hA4def, lookup_adjust, if_pos rfl, ha3d]
    rfl
  have hs2 : sumBalances A2 = sumBalances m := by
    rw [hA2def, sum_ensure, hA1def, sum_ensure]
  have hs3 : sumBalances A3 = sumBalances A2 - q := by
    rw [hA3def, sum_adjust A2 src _ a2 ha2]
    ring
  have hs4 : sumBalances A4 = sumBalances A3 + q := by
    rw [hA4def, sum_adjust A3 dst _ a3d ha3d]
    ring
  constructor
  · rw [hs4, hs3, hs2]
    ring
  · intro hne
    constructor
    · have hstep : lookupAcc A4 src = lookupAcc A3 src := by
        rw [hA4def, lookup_adjust, if_neg (fun hh => hne hh.symm)]
      have h4 : lookupAcc A4 src = some { a2 with balance := a2.balance - q } := by
        rw [hstep, ha3src]
      rw [getBalance_eq A4 src _ h4]
      simp [hb2]
    · rw [getBalance_eq A4 dst _ ha4dst]
      simp [hDstNe hne]

/-! ### Snapshot field lemmas -/

theorem tax_of_fields (s : AgentState) (now : DateTime) :
    (calculate_snapshot s now).estimated_tax_liability =
      if 0 < (calculate_snapshot s now).ytd_income -
          (calculate_snapshot s now).ytd_expenses * (1 / 10) then
        ((calculate_snapshot s now).ytd_income -
          (calculate_snapshot s now).ytd_expenses * (1 / 10)) * (22 / 100)
      else 0 := by
  unfold calculate_snapshot
  simp only

theorem net_worth_of_fields (s : AgentState) (now : DateTime) :
    (calculate_snapshot s now).net_worth =
      (calculate_snapshot s now).total_cash + (calculate_snapshot s now).total_investments -
        (calculate_snapshot s now).total_liabilities := by
  unfold calculate_snapshot
  simp only

/-! ### Claim C1 -/

/-- Fixture for C1: a transaction whose debit and credit account coincide. -/
def argsC1same : AddTxArgs :=
  { description := "self", amount := 50, account_from := "Checking",
    account_to := "Checking", category := "expense" }

/-- Fixture for C1: the spec example (amount 50, Checking to Dining, expense). -/
def argsC1dinner : AddTxArgs :=
  { description := "dinner", amount := 50, account_from := "Checking",
    account_to := "Dining", category := "expense" }

/-- C1 (counterexample): the claim quantifies over every applied transaction,
but when `account_from = account_to` the debited account's balance does not
decrease by `amount`: applying amount 50 from "Checking" to "Checking" on an
empty state leaves the balance at 0, not -50. -/
theorem C1_counterexample :
    getBalance (applyAddTransaction (create_default_state "t0") argsC1same "id0"
      ⟨2026, 1⟩).accounts "Checking" = 0 ∧
    getBalance (create_default_state "t0").accounts "Checking" - 50 = -50 ∧
    (0 : ℚ) ≠ -50 := by
  refine ⟨?_, ?_, by norm_num⟩
  · simp [applyAddTransaction, add_transaction, argsC1same, create_default_state,
      ensureAccount, insertAcc, adjustAcc, lookupAcc, getBalance]
  · simp [create_default_state, lookupAcc, getBalance]

/-- C1 (amended): for every applied transaction the sum of all account
balances is unchanged, and whenever the debited and credited accounts are
distinct, the debited account's balance decreases by exactly `amount` and
the credited account's balance increases by exactly `amount` (an absent
account counting as balance 0, since it is auto-created with balance 0). -/
theorem C1_double_entry_amended (s : AgentState) (args : AddTxArgs)
    (txId : String) (ts : DateTime) :
    sumBalances (applyAddTransaction s args txId ts).accounts = sumBalances s.accounts ∧
    (args.account_from ≠ args.account_to →
      getBalance (applyAddTransaction s args txId ts).accounts args.account_from =
        getBalance s.accounts args.account_from - args.amount ∧
      getBalance (applyAddTransaction s args txId ts).accounts args.account_to =
        getBalance s.accounts args.account_to + args.amount) := by
  have hacc : (applyAddTransaction s args txId ts).accounts =
      adjustAcc (adjustAcc (ensureAccount (ensureAccount s.accounts args.account_from "asset")
          args.account_to (if args.category = "expense" then "expense" else "asset"))
        args.account_from (fun b => b - args.amount)) args.account_to
        (fun b => b + args.amount) := rfl
  rw [hacc]
  exact postAccounts s.accounts args.account_from args.account_to _ args.amount

/-- Witness for C1 at the spec's example: from the empty state, amount 50
from "Checking" to "Dining" yields balances -50 and 50 and preserves the sum. -/
theorem C1_double_entry_witness :
    ("Checking" : String) ≠ "Dining" ∧
    getBalance (applyAddTransaction (create_default_state "t0") argsC1dinner "id1"
      ⟨2026, 1⟩).accounts "Checking" =
      getBalance (create_default_state "t0").accounts "Checking" - 50 ∧
    getBalance (applyAddTransaction (create_default_state "t0") argsC1dinner "id1"
      ⟨2026, 1⟩).accounts "Dining" =
      getBalance (create_default_state "t0").accounts "Dining" + 50 ∧
    getBalance (applyAddTransaction (create_default_state "t0") argsC1dinner "id1"
      ⟨2026, 1⟩).accounts "Checking" = -50 ∧
    getBalance (applyAddTransaction (create_default_state "t0") argsC1dinner "id1"
      ⟨2026, 1⟩).accounts "Dining" = 50 ∧
    sumBalances (applyAddTransaction (create_default_state "t0") argsC1dinner "id1"
      ⟨2026, 1⟩).accounts = sumBalances (create_default_state "t0").accounts := by
  refine ⟨by decide, ?_, ?_, ?_, ?_, ?_⟩
  · exact ((C1_double_entry_amended (create_default_state "t0") argsC1dinner "id1"
      ⟨2026, 1⟩).2 (by decide)).1
  · exact ((C1_double_entry_amended (create_default_state "t0") argsC1dinner "id1"
      ⟨2026, 1⟩).2 (by decide)).2
  · simp [applyAddTransaction, add_transaction, argsC1dinner, create_default_state,
      ensureAccount, insertAcc, adjustAcc, lookupAcc, getBalance]
  · simp [applyAddTransaction, add_transaction, argsC1dinner, create_default_state,
      ensureAccount, insertAcc, adjustAcc, lookupAcc, getBalance]
  · exact (C1_double_entry_amended (create_default_state "t0") argsC1dinner "id1"
      ⟨2026, 1⟩).1


/-! ### Claim C2 -/

/-- Fixture for C2: a transaction with a non-positive (negative) amount. -/
def argsC2neg : AddTxArgs :=
  { description := "refund", amount := -50, account_from := "Checking",
    account_to := "Dining", category := "expense" }

/-- C2 (counterexample): the claim says a non-positive amount is rejected
with a validation error before any state mutation, but the code contains no
validation: with amount -50 the tool reports success, the transaction is
appended to the history, and the debited account's balance moves to +50. -/
theorem C2_counterexample :
    (add_transaction argsC2neg "id0" ⟨2026, 1⟩).success = true ∧
    (applyAddTransaction (create_default_state "t0") argsC2neg "id0"
      ⟨2026, 1⟩).transactions ≠ (create_default_state "t0").transactions ∧
    getBalance (applyAddTransaction (create_default_state "t0") argsC2neg "id0"
      ⟨2026, 1⟩).accounts "Checking" = 50 := by
  refine ⟨rfl, by decide, ?_⟩
  simp [applyAddTransaction, add_transaction, argsC2neg, create_default_state,
    ensureAccount, insertAcc, adjustAcc, lookupAcc, getBalance]

/-- C2 (amended): no amount validation is performed anywhere on the
`add_transaction` path: the tool reports success for every amount (including
non-positive ones), and `process_message` unconditionally appends the
transaction and posts the signed double-entry update; there is no rejection
path and no error is surfaced. -/
theorem C2_no_validation_amended (s : AgentState) (args : AddTxArgs)
    (txId : String) (ts : DateTime) :
    (add_transaction args txId ts).success = true ∧
    (applyAddTransaction s args txId ts).transactions =
      s.transactions ++ [(add_transaction args txId ts).transaction] := by
  exact ⟨rfl, rfl⟩

/-! ### Claim C3 -/

/-- C3: the snapshot's tax estimate is computed exactly as
`taxable = ytd_income - 0.10 * ytd_expenses`,
`estimated_tax_liability = 0.22 * taxable` when `taxable > 0` and 0
otherwise; in particular ytd_income 10000 and ytd_expenses 2000 give
estimated tax 2156, and a non-positive taxable gives 0. -/
theorem C3_tax_formula (s : AgentState) (now : DateTime) :
    ((calculate_snapshot s now).ytd_income = 10000 →
      (calculate_snapshot s now).ytd_expenses = 2000 →
      (calculate_snapshot s now).estimated_tax_liability = 2156) ∧
    ((calculate_snapshot s now).ytd_income -
        (1 / 10) * (calculate_snapshot s now).ytd_expenses ≤ 0 →
      (calculate_snapshot s now).estimated_tax_liability = 0) ∧
    (0 < (calculate_snapshot s now).ytd_income -
        (1 / 10) * (calculate_snapshot s now).ytd_expenses →
      (calculate_snapshot s now).estimated_tax_liability =
        (22 / 100) * ((calculate_snapshot s now).ytd_income -
          (1 / 10) * (calculate_snapshot s now).ytd_expenses)) := by
  have h := tax_of_fields s now
  refine ⟨?_, ?_, ?_⟩
  · intro h1 h2
    rw [h1, h2] at h
    norm_num at h
    exact h
  · intro hle
    rw [h, if_neg (by linarith)]
  · intro hpos
    rw [h, if_pos (by linarith)]
    ring

/-- Witness for C3: a concrete state with one income transaction of 10000
and one expense of 2000 in the snapshot year has estimated tax 2156. -/
def stateC3 : AgentState :=
  { create_default_state "t0" with
      transactions :=
        [ { id := "i1", timestamp := ⟨2026, 2⟩, description := "salary",
            amount := 10000, account_from := "Checking", account_to := "Salary",
            category := "income", subcategory := none, cost_basis := none,
            asset_type := none, quantity := none },
          { id := "e1", timestamp := ⟨2026, 3⟩, description := "rent",
            amount := 2000, account_from := "Rent", account_to := "Checking",
            category := "expense", subcategory := none, cost_basis := none,
            asset_type := none, quantity := none } ] }

theorem C3_tax_formula_witness :
    (calculate_snapshot stateC3 ⟨2026, 6⟩).ytd_income = 10000 ∧
    (calculate_snapshot stateC3 ⟨2026, 6⟩).ytd_expenses = 2000 ∧
    (calculate_snapshot stateC3 ⟨2026, 6⟩).estimated_tax_liability = 2156 := by
  have h1 : (calculate_snapshot stateC3 ⟨2026, 6⟩).ytd_income = 10000 := by
    simp [calculate_snapshot, stateC3, create_default_state, ytdFold,
      List.foldl_cons, List.foldl_nil]
  have h2 : (calculate_snapshot stateC3 ⟨2026, 6⟩).ytd_expenses = 2000 := by
    simp [calculate_snapshot, stateC3, create_default_state, ytdFold,
      List.foldl_cons, List.foldl_nil]
  exact ⟨h1, h2, (C3_tax_formula stateC3 ⟨2026, 6⟩).1 h1 h2⟩

/-! ### Claim C4 -/

/-- C4: `ytd_income` is the sum of the amounts of exactly those transactions
whose timestamp year equals the year of `asOf` and whose category is
"income", and `ytd_expenses` likewise for "expense"; adding a transaction
with category "transfer" or "investment", or dated outside the year of
`asOf`, changes neither total. -/
theorem C4_ytd_aggregation (s : AgentState) (now : DateTime) :
    (calculate_snapshot s now).ytd_income = ytdSum now.year "income" s.transactions ∧
    (calculate_snapshot s now).ytd_expenses = ytdSum now.year "expense" s.transactions ∧
    (∀ tx : Transaction,
      tx.category = "transfer" ∨ tx.category = "investment" ∨
        tx.timestamp.year ≠ now.year →
      (calculate_snapshot { s with transactions := tx :: s.transactions } now).ytd_income =
        (calculate_snapshot s now).ytd_income ∧
      (calculate_snapshot { s with transactions := tx :: s.transactions } now).ytd_expenses =
        (calculate_snapshot s now).ytd_expenses) := by
  refine ⟨calculate_ytd_income s now, calculate_ytd_expenses s now, ?_⟩
  intro tx htx
  have hheadI : ¬(tx.timestamp.year = now.year ∧ tx.category = "income") := by
    rintro ⟨hy, hc⟩
    rcases htx with h | h | h
    · rw [h] at hc; exact absurd hc (by decide)
    · rw [h] at hc; exact absurd hc (by decide)
    · exact h hy
  have hheadE : ¬(tx.timestamp.year = now.year ∧ tx.category = "expense") := by
    rintro ⟨hy, hc⟩
    rcases htx with h | h | h
    · rw [h] at hc; exact absurd hc (by decide)
    · rw [h] at hc; exact absurd hc (by decide)
    · exact h hy
  constructor
  · rw [calculate_ytd_income, calculate_ytd_income]
    show ytdSum now.year "income" (tx :: s.transactions) = ytdSum now.year "income" s.transactions
    rw [ytdSum, if_neg hheadI, zero_add]
  · rw [calculate_ytd_expenses, calculate_ytd_expenses]
    show ytdSum now.year "expense" (tx :: s.transactions) = ytdSum now.year "expense" s.transactions
    rw [ytdSum, if_neg hheadE, zero_add]

/-- Fixture for C4's witness: a transfer transaction in the snapshot year. -/
def txC4transfer : Transaction :=
  { id := "tr1", timestamp := ⟨2026, 4⟩, description := "move", amount := 300,
    account_from := "Savings", account_to := "Checking", category := "transfer",
    subcategory := none, cost_basis := none, asset_type := none, quantity := none }

theorem C4_ytd_aggregation_witness :
    (txC4transfer.category = "transfer" ∨ txC4transfer.category = "investment" ∨
      txC4transfer.timestamp.year ≠ (2026 : Int)) ∧
    (calculate_snapshot { stateC3 with transactions := txC4transfer :: stateC3.transactions }
        ⟨2026, 6⟩).ytd_income = (calculate_snapshot stateC3 ⟨2026, 6⟩).ytd_income ∧
    (calculate_snapshot { stateC3 with transactions := txC4transfer :: stateC3.transactions }
        ⟨2026, 6⟩).ytd_expenses = (calculate_snapshot stateC3 ⟨2026, 6⟩).ytd_expenses := by
  refine ⟨Or.inl rfl, ?_, ?_⟩
  · exact ((C4_ytd_aggregation stateC3 ⟨2026, 6⟩).2.2 txC4transfer (Or.inl rfl)).1
  · exact ((C4_ytd_aggregation stateC3 ⟨2026, 6⟩).2.2 txC4transfer (Or.inl rfl)).2

/-! ### Claim C5 -/

theorem setup_questions_length : SETUP_QUESTIONS.length = 8 := rfl

/-- One answered setup turn, written as an explicit record update: store the
parsed answer, advance one step, and append the next question (or the
completion message after the final answer). -/
theorem runSetupTurn_eq (s : AgentState) (a : String)
    (h : s.setup_step < SETUP_QUESTIONS.length) :
    runSetupTurn s a =
      { s with
        user_profile := some (storeAnswer (s.user_profile.getD defaultProfile) s.setup_step a)
        setup_step := s.setup_step + 1
        messages :=
          if s.setup_step + 1 < SETUP_QUESTIONS.length then
            (s.messages ++ [{ role := "user", content := a }]) ++
              [{ role := "assistant",
                 content := "Got it! " ++ SETUP_QUESTIONS.getD (s.setup_step + 1) "" }]
          else (s.messages ++ [{ role := "user", content := a }]) ++ [completionMessage] } := by
  unfold runSetupTurn handle_setup
  rw [if_pos h, getLast_concat_msg]
  simp only [handleAnswer]
  norm_num


/-- C5: starting from no profile and setup_step 0, supplying 8 sequential
user answers drives `setup_step` from 0 to 8, stores one profile field per
step, and sets `setup_complete = true` exactly after the 8th answer (after 7
answers it is still false); the wizard advances by one step on every
answered turn, a dependents answer with no integer defaults to 0, and an
annual-income answer that does not parse as a decimal after stripping
defaults to 0. -/
theorem C5_setup_wizard (a0 a1 a2 a3 a4 a5 a6 a7 : String) :
    (runAnswers (create_default_state "t0") [a0, a1, a2, a3, a4, a5, a6, a7]).setup_step = 8 ∧
    (runAnswers (create_default_state "t0") [a0, a1, a2, a3, a4, a5, a6, a7]).user_profile =
      some { tax_residency := a0, filing_status := a1,
             dependents := parseDependents a2, income_sources := splitCommaStrip a3,
             annual_income_estimate := parseIncome a4,
             retirement_accounts := splitCommaStrip a5,
             investment_accounts := splitCommaStrip a6,
             primary_bank := a7, setup_complete := true } ∧
    (runAnswers (create_default_state "t0") [a0, a1, a2, a3, a4, a5, a6]).user_profile =
      some { tax_residency := a0, filing_status := a1,
             dependents := parseDependents a2, income_sources := splitCommaStrip a3,
             annual_income_estimate := parseIncome a4,
             retirement_accounts := splitCommaStrip a5,
             investment_accounts := splitCommaStrip a6,
             primary_bank := "", setup_complete := false } ∧
    (∀ (s : AgentState) (a : String), s.setup_step < 8 →
      (runSetupTurn s a).setup_step = s.setup_step + 1) ∧
    (∀ a : String, a.toList.all (fun c => !c.isDigit) = true → parseDependents a = 0) ∧
    (∀ a : String, parseDecimal (stripNonDigitDot a) = none → parseIncome a = 0) := by
  refine ⟨?_, ?_, ?_, ?_, ?_, ?_⟩
  · simp [runAnswers, runSetupTurn_eq, storeAnswer, setup_questions_length, defaultProfile,
      create_default_state, Option.getD]
  · simp [runAnswers, runSetupTurn_eq, storeAnswer, setup_questions_length, defaultProfile,
      create_default_state, Option.getD]
  · simp [runAnswers, runSetupTurn_eq, storeAnswer, setup_questions_length, defaultProfile,
      create_default_state, Option.getD]
  · intro s a hs
    have h8 : ({ s with messages := s.messages ++ [{ role := "user", content := a }] } :
        AgentState).setup_step < SETUP_QUESTIONS.length := hs
    unfold runSetupTurn handle_setup
    rw [if_pos h8, getLast_concat_msg]
    simp [handleAnswer]
  · intro a h
    exact parseDependents_no_digit a h
  · intro a h
    unfold parseIncome
    rw [h]

/-- Witness for C5: a concrete 8-answer run (with a digit-free dependents
answer "none" and a non-numeric income answer "abc") completes the wizard,
and the malformed answers default to 0. -/
theorem C5_setup_wizard_witness :
    ("none".toList.all (fun c => !c.isDigit) = true) ∧
    parseDependents "none" = 0 ∧
    parseDecimal (stripNonDigitDot "abc") = none ∧
    parseIncome "abc" = 0 ∧
    (create_default_state "t0").setup_step < 8 ∧
    (runSetupTurn (create_default_state "t0") "US").setup_step =
      (create_default_state "t0").setup_step + 1 ∧
    (runAnswers (create_default_state "t0")
      ["US", "Single", "none", "W-2", "abc", "401k", "none", "Chase"]).setup_step = 8 := by
  refine ⟨by decide, ?_, by decide, ?_, by decide, ?_, ?_⟩
  · exact (C5_setup_wizard "a" "b" "c" "d" "e" "f" "g" "h").2.2.2.2.1 "none" (by decide)
  · exact (C5_setup_wizard "a" "b" "c" "d" "e" "f" "g" "h").2.2.2.2.2 "abc" (by decide)
  · exact (C5_setup_wizard "a" "b" "c" "d" "e" "f" "g" "h").2.2.2.1
      (create_default_state "t0") "US" (by decide)
  · exact (C5_setup_wizard "US" "Single" "none" "W-2" "abc" "401k" "none" "Chase").1

/-- Two agent states with equal fields are equal. -/
theorem agentState_ext (x y : AgentState)
    (h1 : x.messages = y.messages) (h2 : x.user_profile = y.user_profile)
    (h3 : x.transactions = y.transactions) (h4 : x.accounts = y.accounts)
    (h5 : x.snapshot = y.snapshot) (h6 : x.pending_sync = y.pending_sync)
    (h7 : x.setup_step = y.setup_step) (h8 : x.thread_id = y.thread_id)
    (h9 : x.last_updated = y.last_updated) : x = y := by
  cases x; cases y; simp_all

/-! ### Claim C6 -/

/-- Fixtures for C6: two distinct incoming transactions that share an id. -/
def txC6a : Transaction :=
  { id := "dup", timestamp := ⟨2026, 1⟩, description := "first", amount := 5,
    account_from := "A", account_to := "B", category := "expense",
    subcategory := none, cost_basis := none, asset_type := none, quantity := none }

def txC6b : Transaction :=
  { id := "dup", timestamp := ⟨2026, 1⟩, description := "second", amount := 7,
    account_from := "A", account_to := "B", category := "expense",
    subcategory := none, cost_basis := none, asset_type := none, quantity := none }

/-- C6 (counterexample): the merge checks membership against the set of ids
taken before the loop, not against the history being appended to, so a
single batch containing two transactions with the same id produces duplicate
entries — contradicting "appends an incoming transaction only if its id is
not already present in the state's transaction history" and "no duplicate
entries". -/
theorem C6_counterexample :
    ((sync_data (create_default_state "t0") [txC6a, txC6b] [] ⟨2026, 1⟩
        "t1").transactions.map (fun t => t.id)) = ["dup", "dup"] ∧
    ¬ ((sync_data (create_default_state "t0") [txC6a, txC6b] [] ⟨2026, 1⟩
        "t1").transactions.map (fun t => t.id)).Nodup := by
  constructor
  · decide
  · decide

/-- C6 (amended): the merge appends an incoming transaction only if its id
is not among the ids present when the merge began; consequently re-merging
the same batch (with the same clock inputs) any number of times is
idempotent — the second merge changes nothing — and when the incoming batch
itself carries pairwise-distinct ids (as a batch keyed by id does), no
duplicate ids are created. -/
theorem C6_merge_idempotent_amended (s : AgentState) (txs : List Transaction)
    (accs : List (String × Account)) (now : DateTime) (nowIso : String) :
    ((sync_data s txs accs now nowIso).transactions =
      s.transactions ++ txs.filter
        (fun t => !(idMem t.id (s.transactions.map (fun x => x.id))))) ∧
    ((accs.map Prod.fst).Nodup →
      sync_data (sync_data s txs accs now nowIso) txs accs now nowIso =
        sync_data s txs accs now nowIso) ∧
    ((s.transactions.map (fun t => t.id)).Nodup → (txs.map (fun t => t.id)).Nodup →
      ((sync_data s txs accs now nowIso).transactions.map (fun t => t.id)).Nodup) := by
  refine ⟨?_, ?_, ?_⟩
  · show mergeTransactions s.transactions txs = _
    exact merge_eq_append_filter s.transactions txs
  · intro hnd
    have htx := merge_idem s.transactions txs
    have hacc := foldIns_idem accs s.accounts hnd
    exact agentState_ext _ _ rfl rfl htx hacc
      (calculate_snapshot_congr _ _ now hacc htx) rfl rfl rfl rfl
  · intro hs ht
    show ((mergeTransactions s.transactions txs).map (fun t => t.id)).Nodup
    exact merge_nodup s.transactions txs hs ht

/-- Fixtures for C6's witness. -/
def txC6w : Transaction :=
  { id := "w1", timestamp := ⟨2026, 1⟩, description := "coffee", amount := 4,
    account_from := "Checking", account_to := "Dining", category := "expense",
    subcategory := none, cost_basis := none, asset_type := none, quantity := none }

def accC6w : String × Account :=
  ("Checking", { name := "Checking", type := "asset", balance := 90, currency := "USD" })

theorem C6_merge_idempotent_witness :
    ([accC6w].map Prod.fst).Nodup ∧
    ((create_default_state "t0").transactions.map (fun t => t.id)).Nodup ∧
    ([txC6w].map (fun t => t.id)).Nodup ∧
    sync_data (sync_data (create_default_state "t0") [txC6w] [accC6w] ⟨2026, 1⟩ "t1")
        [txC6w] [accC6w] ⟨2026, 1⟩ "t1" =
      sync_data (create_default_state "t0") [txC6w] [accC6w] ⟨2026, 1⟩ "t1" ∧
    ((sync_data (create_default_state "t0") [txC6w] [accC6w] ⟨2026, 1⟩
        "t1").transactions.map (fun t => t.id)).Nodup := by
  refine ⟨by decide, by decide, by decide, ?_, ?_⟩
  · exact (C6_merge_idempotent_amended (create_default_state "t0") [txC6w] [accC6w]
      ⟨2026, 1⟩ "t1").2.1 (by decide)
  · exact (C6_merge_idempotent_amended (create_default_state "t0") [txC6w] [accC6w]
      ⟨2026, 1⟩ "t1").2.2 (by decide) (by decide)

/-! ### Claim C7 -/

/-- C7: the Snapshot Calculator is a pure function of the ledger contents of
the state and of `asOf` (the `datetime.now()` read, modelled as the explicit
`now` argument): any two states with the same accounts and transactions
yield identical snapshots for the same `asOf`, independent of every other
component of the state; being a plain function of `(state, now)`, it
mutates nothing and two calls on the same arguments agree. -/
theorem C7_snapshot_deterministic (s1 s2 : AgentState) (now : DateTime)
    (ha : s1.accounts = s2.accounts) (ht : s1.transactions = s2.transactions) :
    calculate_snapshot s1 now = calculate_snapshot s2 now :=
  calculate_snapshot_congr s1 s2 now ha ht

/-- Witness for C7: two states that differ in messages, profile and step but
share ledger contents produce identical snapshots. -/
def stateC7 : AgentState :=
  { create_default_state "t0" with
      messages := [{ role := "user", content := "hello" }]
      setup_step := 3
      last_updated := "t9" }

theorem C7_snapshot_deterministic_witness :
    (create_default_state "t0").accounts = stateC7.accounts ∧
    (create_default_state "t0").transactions = stateC7.transactions ∧
    calculate_snapshot (create_default_state "t0") ⟨2026, 5⟩ =
      calculate_snapshot stateC7 ⟨2026, 5⟩ := by
  exact ⟨rfl, rfl, C7_snapshot_deterministic (create_default_state "t0") stateC7
    ⟨2026, 5⟩ rfl rfl⟩

/-! ### Claim C8 -/

/-- Fixture for C8: a liability account with a negative stored balance. -/
def stateC8 : AgentState :=
  { create_default_state "t0" with
      accounts :=
        [("Loan", { name := "Loan", type := "liability", balance := -100,
                    currency := "USD" })] }

/-- C8 (counterexample): the code adds each liability account's signed
balance to `total_liabilities` without taking a magnitude: a liability
account holding balance -100 contributes -100, not the positive magnitude
100. -/
theorem C8_counterexample :
    (calculate_snapshot stateC8 ⟨2026, 1⟩).total_liabilities = -100 ∧
    ((-100 : ℚ) ≠ 100) := by
  constructor
  · simp [calculate_snapshot, stateC8, create_default_state, accFold,
      List.foldl_cons, List.foldl_nil]
  · norm_num

/-- C8 (amended): an asset account contributes to `total_investments` iff
its name contains, case-insensitively, one of "invest", "stock", "crypto",
and to `total_cash` otherwise; every liability account contributes its
signed balance to `total_liabilities` (a positive magnitude exactly when the
stored balance is non-negative); and
`net_worth = total_cash + total_investments - total_liabilities`. -/
theorem C8_classification_amended (s : AgentState) (now : DateTime) :
    (calculate_snapshot s now).total_investments = sumAssetsInv s.accounts ∧
    (calculate_snapshot s now).total_cash = sumAssetsCash s.accounts ∧
    (calculate_snapshot s now).total_liabilities = sumLiabilities s.accounts ∧
    (calculate_snapshot s now).net_worth =
      (calculate_snapshot s now).total_cash + (calculate_snapshot s now).total_investments -
        (calculate_snapshot s now).total_liabilities := by
  obtain ⟨h1, h2, h3⟩ := calculate_totals s now
  exact ⟨h2, h1, h3, net_worth_of_fields s now⟩

/-! ### Claim C9 -/

/-- C9 (counterexample): on the Setup Wizard path the snapshot is not
recomputed and `last_updated` is not touched: a setup-phase state holding an
asset account of 100 with a stale all-zero recorded snapshot keeps
`total_cash = 0` recorded after `handle_setup` although recomputing on the
resulting state gives 100, and `last_updated` keeps its old value. -/
def stateC9 : AgentState :=
  { create_default_state "t0" with
      accounts :=
        [("Cash", { name := "Cash", type := "asset", balance := 100,
                    currency := "USD" })]
      messages := [{ role := "user", content := "US" }] }

theorem C9_counterexample :
    (handle_setup stateC9).snapshot.total_cash = 0 ∧
    (calculate_snapshot (handle_setup stateC9) ⟨2026, 1⟩).total_cash = 100 ∧
    (handle_setup stateC9).last_updated = "t0" := by
  refine ⟨?_, ?_, ?_⟩
  · simp [handle_setup, handleAnswer, stateC9, create_default_state, getLast_concat_msg,
      storeAnswer, SETUP_QUESTIONS]
  · have hc : isInvestmentName "Cash" = false := by decide
    simp [handle_setup, handleAnswer, stateC9, create_default_state, getLast_concat_msg,
      storeAnswer, SETUP_QUESTIONS, calculate_snapshot, accFold, hc,
      List.foldl_cons, List.foldl_nil]
  · simp [handle_setup, handleAnswer, stateC9, create_default_state, getLast_concat_msg,
      storeAnswer, SETUP_QUESTIONS]

/-- C9 (amended): only the transaction-processing path recomputes the
snapshot, records it on the state, and stamps `last_updated` with the turn's
`utcnow`; the Setup Wizard path returns the state with both the recorded
snapshot and `last_updated` exactly as they were. -/
theorem C9_snapshot_refresh_amended (s : AgentState) (toolCalls : List ToolCall)
    (content : String) (now : DateTime) (nowIso : String) :
    (process_message s toolCalls content now nowIso).snapshot =
      calculate_snapshot (process_message s toolCalls content now nowIso) now ∧
    (process_message s toolCalls content now nowIso).last_updated = nowIso ∧
    (handle_setup s).snapshot = s.snapshot ∧
    (handle_setup s).last_updated = s.last_updated := by
  refine ⟨?_, rfl, ?_, ?_⟩
  · have h := calculate_snapshot_congr
      (process_message s toolCalls content now nowIso)
      (toolCalls.foldl applyToolCall { s with snapshot := calculate_snapshot s now })
      now rfl rfl
    rw [h]
    rfl
  · unfold handle_setup
    split
    · split
      · split
        · rfl
        · rfl
      · rfl
    · rfl
  · unfold handle_setup
    split
    · split
      · split
        · rfl
        · rfl
      · rfl
    · rfl

/-! ### Claim C10 -/

/-- C10: for every state whose `setup_step` is at least 8 (the number of
setup questions), `handle_setup` returns the state completely unchanged: no
message is appended, and the user profile and `setup_step` are untouched. -/
theorem C10_setup_done_frame (s : AgentState) (h : 8 ≤ s.setup_step) :
    handle_setup s = s := by
  unfold handle_setup
  rw [if_neg]
  rw [setup_questions_length]
  omega

/-- Witness for C10 at a concrete completed state. -/
def stateC10 : AgentState :=
  { create_default_state "t0" with setup_step := 8 }

theorem C10_setup_done_frame_witness :
    8 ≤ stateC10.setup_step ∧ handle_setup stateC10 = stateC10 := by
  exact ⟨by decide, C10_setup_done_frame stateC10 (by decide)⟩
